import Mathlib

/-!
Shallow embedding of the identity-keyed append-log store of the mcp-crm
repository: the key normalizers, the row locators, the append-log
reconcilers, the session flush, and the token-refreshing store client,
together with theorems checking the specification's claims against them.

Strings are modelled as lists of characters; the sheet as the list of its
data rows (range A2:F1000, so sheet row i + 2 is list index i), each row a
variable-width list of cell strings. Network effects are modelled by
explicit parameters: a writeOk flag for whether the update/append HTTP
call succeeds, and an Option-valued token-exchange response; thrown
errors become Except errors.
-/

/-- A JS string, modelled as a list of characters. -/
abbrev Str := List Char

/-- One sheet row: a variable-width list of cell strings. -/
abbrev Row := List Str

/-- The data-row region of the sheet: sheet row i + 2 is list index i. -/
abbrev Sheet := List Row

/-- Reading cell i of a row, a missing cell defaulting to the empty string
(the row[i] || '' pattern of the source). -/
def cell (r : Row) (i : Nat) : Str := r.getD i []

/-- Strips every non-digit character: the replace of all non-digits by the
empty string, shared by all normalizeContactNumber variants. -/
def stripNonDigits (s : Str) : Str := s.filter Char.isDigit

/-- Removes trailing whitespace. -/
def trimRight : Str → Str
  | [] => []
  | a :: as =>
    let r := trimRight as
    if r = [] then (if a.isWhitespace then [] else [a]) else a :: r

/-- JS String.trim: removes leading and trailing whitespace. -/
def trimStr (s : Str) : Str := trimRight (s.dropWhile Char.isWhitespace)

/-- Email normalization (trim then lowercase), as in part_002 lines 765-767
and part_004 lines 503-505. -/
def normalizeEmail (s : Str) : Str := (trimStr s).map Char.toLower

/-- Contact normalization of part_000 lines 210-223: strip non-digits, drop
a leading US country code from an 11-digit number, keep a 10-digit number,
and otherwise fall back to the stripped digits. -/
def normalizeContactNumber (s : Str) : Str :=
  if (stripNonDigits s).length = 11 ∧ (stripNonDigits s).head? = some '1' then
    (stripNonDigits s).tail
  else if (stripNonDigits s).length = 10 then stripNonDigits s
  else stripNonDigits s

/-- Outcome of one reconciler invocation. -/
inductive SaveOutcome where
  | updated (rowIndex : Nat)
  | created
  | noop
deriving DecidableEq

/-- Overwrite the whole row at a 1-based sheet row index, as updateRow of
part_004 lines 568-589 (data row k lives at list index k - 2). -/
def updateRow (sheet : Sheet) (rowIndex : Nat) (values : Row) : Sheet :=
  sheet.set (rowIndex - 2) values

/-- Joining a list of lines with newline separators. -/
def joinLines (lines : List Str) : Str := List.intercalate ['\n'] lines

namespace GSheets4

/-- Service-side email normalizer of part_004 lines 503-505. -/
def normalizeEmail (s : Str) : Str := (trimStr s).map Char.toLower

/-- Service-side contact normalizer of part_004 lines 507-521 (identical in
part_002 lines 769-783); unlike the part_000 variant, its fallback returns
the trimmed original input rather than the stripped digits. -/
def normalizeContactNumber (s : Str) : Str :=
  if (stripNonDigits s).length = 11 ∧ (stripNonDigits s).head? = some '1' then
    (stripNonDigits s).tail
  else if (stripNonDigits s).length = 10 then stripNonDigits s
  else trimStr s

/-- Scanning loop of findRowByEmailAndContact, part_004 lines 548-562: i is
the list index of the current row, so a hit at i is sheet row i + 2; rows
shorter than 3 cells are skipped; stored cells and the query are compared
through the same service normalizers. -/
def findFrom (qe qc : Str) : Nat → Sheet → Option (Nat × Row)
  | _, [] => none
  | i, r :: rest =>
    if r.length < 3 then findFrom qe qc (i + 1) rest
    else if normalizeEmail (cell r 1) = qe ∧ normalizeContactNumber (cell r 2) = qc then
      some (i + 2, r)
    else findFrom qe qc (i + 1) rest

/-- Row locator of part_004 lines 523-566: normalizes the query once and
every stored row's email/contact cells with the same normalizers. -/
def findRowByEmailAndContact (email contactNumber : Str) (sheet : Sheet) :
    Option (Nat × Row) :=
  findFrom (normalizeEmail email) (normalizeContactNumber contactNumber) 0 sheet

/-- Append-log reconciler of part_004 lines 599-655. writeOk models whether
the underlying update/append HTTP call succeeds (a failing call throws,
which the Except error represents); otherValues is [timestamp, summary,
userId], read at indices 0, 1, 2. -/
def appendChatLinesToRow (writeOk : Bool) (email contactNumber : Str)
    (newChatLines : List Str) (otherValues : List Str) (sheet : Sheet) :
    Except Str (Sheet × SaveOutcome) :=
  if email = [] ∨ contactNumber = [] then
    .error ("Both email and contact number are required").data
  else if newChatLines = [] then .ok (sheet, .noop)
  else
    match findRowByEmailAndContact email contactNumber sheet with
    | some (rowIndex, row) =>
      if writeOk then
        .ok (updateRow sheet rowIndex
              [otherValues.getD 0 [], email, contactNumber, otherValues.getD 1 [],
               (if cell row 4 = [] then joinLines newChatLines
                else cell row 4 ++ '\n' :: joinLines newChatLines),
               otherValues.getD 2 []],
             .updated rowIndex)
      else .error ("Failed to update Google Sheet").data
    | none =>
      if writeOk then
        .ok (sheet ++
              [[otherValues.getD 0 [], email, contactNumber, otherValues.getD 1 [],
                joinLines newChatLines, otherValues.getD 2 []]],
             .created)
      else .error ("Failed to append to Google Sheet").data

end GSheets4

/-- Specification-side row locator, following the spec's words in section
4.3: scan the data rows in order and return the first whose normalized
stored email and contact cells equal the normalized query, rows with fewer
than 3 columns never matching. -/
def findSpec (email contactNumber : Str) (sheet : Sheet) : Option (Nat × Row) :=
  (sheet.enum.find? fun p =>
      decide (3 ≤ p.2.length)
        && decide (GSheets4.normalizeEmail (cell p.2 1) = GSheets4.normalizeEmail email)
        && decide (GSheets4.normalizeContactNumber (cell p.2 2)
              = GSheets4.normalizeContactNumber contactNumber)).map
    fun p => (p.1 + 2, p.2)

namespace GSheetsRaw

/-- Scanning loop of google-sheets-extensions.ts lines 66-71 (identical in
part_005 lines 66-71): the raw stored cells are compared against the query
with no normalization; a strict-equality test of row[k] against a string is
modelled as get? k = some query (an out-of-range cell never matches). -/
def findFrom (email contactNumber : Str) : Nat → Sheet → Option (Nat × Row)
  | _, [] => none
  | i, r :: rest =>
    if r.get? 1 = some email ∧ r.get? 2 = some contactNumber then some (i + 2, r)
    else findFrom email contactNumber (i + 1) rest

/-- Row locator of google-sheets-extensions.ts lines 56-73 (identical in
part_005 lines 56-73): no normalization of either side. -/
def findRowByEmailAndContact (email contactNumber : Str) (sheet : Sheet) :
    Option (Nat × Row) :=
  findFrom email contactNumber 0 sheet

/-- Reconciler variant of part_005 lines 101-123: no empty-key rejection and
no empty-lines guard, so an empty newChatLines list still issues a write
(an update that keeps the history cell but refreshes timestamp and summary,
or an append of a row with empty history). -/
def appendChatLinesToRow (writeOk : Bool) (email contactNumber : Str)
    (newChatLines : List Str) (otherValues : List Str) (sheet : Sheet) :
    Except Str (Sheet × SaveOutcome) :=
  match findRowByEmailAndContact email contactNumber sheet with
  | some (rowIndex, row) =>
    if writeOk then
      .ok (updateRow sheet rowIndex
            [otherValues.getD 0 [], email, contactNumber, otherValues.getD 1 [],
             (if newChatLines = [] then cell row 4
              else if cell row 4 = [] then joinLines newChatLines
              else cell row 4 ++ '\n' :: joinLines newChatLines),
             otherValues.getD 2 []],
           .updated rowIndex)
    else .error ("Failed to update Google Sheet").data
  | none =>
    if writeOk then
      .ok (sheet ++
            [[otherValues.getD 0 [], email, contactNumber, otherValues.getD 1 [],
              joinLines newChatLines, otherValues.getD 2 []]],
           .created)
    else .error ("Failed to append to Google Sheet").data

end GSheetsRaw

namespace GSheetsMain

/-- Scanning loop of findUserRow, google-sheets.ts lines 134-144: stored and
query emails are lowercased then trimmed, contacts are reduced to their
digits; rows shorter than 3 cells are skipped. -/
def findFrom (qe qc : Str) : Nat → Sheet → Option Nat
  | _, [] => none
  | i, r :: rest =>
    if 3 ≤ r.length then
      if trimStr ((cell r 1).map Char.toLower) = qe ∧ stripNonDigits (cell r 2) = qc then
        some (i + 2)
      else findFrom qe qc (i + 1) rest
    else findFrom qe qc (i + 1) rest

/-- Row locator findUserRow of google-sheets.ts lines 127-151, scanning the
data range from sheet row 2. -/
def findUserRow (email contactNumber : Str) (sheet : Sheet) : Option Nat :=
  findFrom (trimStr (email.map Char.toLower)) (stripNonDigits contactNumber) 0 sheet

end GSheetsMain

/-- One conversation message of the session tracker. -/
structure ChatMessage where
  role : Str
  content : Str
  timestamp : Str
deriving DecidableEq

/-- In-memory session state of the index.ts tracker: the conversation, the
working contact number, and the high-water mark of saved messages. -/
structure SessionState where
  conversation : List ChatMessage
  userContactNumber : Option Str
  lastSavedMessageIndex : Nat
  lastSaveTime : Str
deriving DecidableEq

/-- Message formatting of index.ts line 688: [timestamp] ROLE: content. -/
def formatLine (m : ChatMessage) : Str :=
  '[' :: m.timestamp ++ ']' :: ' ' :: m.role.map Char.toUpper ++ ':' :: ' ' :: m.content

/-- Decimal rendering of a count, for the summary string. -/
def natStr (n : Nat) : Str := (Nat.repr n).data

/-- Summary string of index.ts line 695. -/
def sessionSummary (total newCount : Nat) : Str :=
  ("Session: ").data ++ natStr total ++ (" messages total, Latest: ").data
    ++ natStr newCount ++ (" new messages").data

/-- The contact value used by the flush, index.ts line 692: the JS
  expression userContactNumber || 'Not provided', where the empty string is
  falsy. -/
def contactOrDefault (o : Option Str) : Str :=
  match o with
  | some c => if c = [] then ("Not provided").data else c
  | none => ("Not provided").data

/-- Result of one flush of the session tracker. -/
inductive FlushResult where
  | saved (outcome : SaveOutcome)
  | nothingNew
  | failed
deriving DecidableEq

/-- Session flush of index.ts lines 674-715 (the durable-state part_002
variant at lines 785-829 has the same slice/advance logic): take the
messages after the high-water mark, return early when there are none,
otherwise reconcile them through appendChatLinesToRow and, only on
success, advance lastSavedMessageIndex to the conversation length; the
catch branch leaves the session state untouched. -/
def saveConversationToSheet (writeOk : Bool) (email userId now : Str)
    (st : SessionState) (sheet : Sheet) : FlushResult × SessionState × Sheet :=
  if st.conversation.drop st.lastSavedMessageIndex = [] then (.nothingNew, st, sheet)
  else
    match GSheets4.appendChatLinesToRow writeOk email
        (contactOrDefault st.userContactNumber)
        ((st.conversation.drop st.lastSavedMessageIndex).map formatLine)
        [now,
         sessionSummary st.conversation.length
           (st.conversation.drop st.lastSavedMessageIndex).length,
         userId] sheet with
    | .ok (sheet', outcome) =>
      (.saved outcome,
       { st with lastSavedMessageIndex := st.conversation.length, lastSaveTime := now },
       sheet')
    | .error _ => (.failed, st, sheet)

/-- Number of store writes a flush result accounts for: a successful update
or append is one write, everything else none. -/
def sheetWrites : FlushResult → Nat
  | .saved .noop => 0
  | .saved _ => 1
  | _ => 0

/-- Credential and token state of the refreshing store client of part_004
lines 731-745. -/
structure TokenState where
  accessToken : Str
  refreshToken : Str
  clientId : Str
  clientSecret : Str
  tokenExpiry : Option Int
deriving DecidableEq

/-- Parsed body of a successful token-exchange response. -/
structure TokenResponse where
  accessToken : Option Str
  expiresIn : Option Int
deriving DecidableEq

namespace GSheetsRefresh

/-- Validity test of part_004 line 749: the token is still usable when an
expiry is known and now is more than 60 seconds before it. -/
def tokenStillValid (now : Int) (st : TokenState) : Bool :=
  match st.tokenExpiry with
  | some e => decide (now < e - 60000)
  | none => false

/-- Token refresh of part_004 lines 747-774: a no-op when any refresh
credential is missing or the token is still valid; otherwise the exchange
runs (its response modelled by the Option argument, none being a failed
exchange) and a failure throws. The Bool of the result records whether an
exchange was performed; JS falsiness of the empty access token and of a
zero expires_in is preserved. -/
def refreshAccessTokenIfNeeded (now : Int) (exchange : Option TokenResponse)
    (st : TokenState) : Except Str (TokenState × Bool) :=
  if st.refreshToken = [] ∨ st.clientId = [] ∨ st.clientSecret = [] then .ok (st, false)
  else if tokenStillValid now st then .ok (st, false)
  else
    match exchange with
    | none => .error ("Failed to refresh access token").data
    | some resp =>
      .ok ({ st with
              accessToken :=
                match resp.accessToken with
                | some t => if t = [] then st.accessToken else t
                | none => st.accessToken,
              tokenExpiry :=
                match resp.expiresIn with
                | some ei => if ei = 0 then st.tokenExpiry else some (now + ei * 1000)
                | none => st.tokenExpiry }, true)

/-- Guarded append of part_004 lines 776-795: the write awaits the token
refresh first, so a refresh failure aborts the append before any write;
writeOk models the append HTTP call itself succeeding. -/
def appendRow (now : Int) (exchange : Option TokenResponse) (writeOk : Bool)
    (st : TokenState) (values : Row) (sheet : Sheet) :
    Except Str (TokenState × Sheet) :=
  match refreshAccessTokenIfNeeded now exchange st with
  | .error e => .error e
  | .ok (st', _) =>
    if writeOk then .ok (st', sheet ++ [values])
    else .error ("Failed to append to Google Sheet").data

end GSheetsRefresh

/-! Whitespace and digit-filter lemmas used by the normalizer theorems. -/

lemma ws_not_digit {c : Char} (h : c.isWhitespace = true) : c.isDigit = false := by
  simp only [Char.isWhitespace, Bool.or_eq_true, decide_eq_true_eq] at h
  rcases h with ((h | h) | h) | h <;> subst h <;> decide

lemma stripNonDigits_idem (s : Str) :
    stripNonDigits (stripNonDigits s) = stripNonDigits s := by
  unfold stripNonDigits
  exact List.filter_eq_self.mpr fun a ha => List.of_mem_filter ha

lemma stripNonDigits_tail (s : Str) :
    stripNonDigits ((stripNonDigits s).tail) = (stripNonDigits s).tail := by
  apply List.filter_eq_self.mpr
  intro a ha
  exact List.of_mem_filter (List.mem_of_mem_tail ha)

lemma filter_digit_dropWhile_ws (l : Str) :
    (l.dropWhile Char.isWhitespace).filter Char.isDigit = l.filter Char.isDigit := by
  induction l with
  | nil => rfl
  | cons a as ih =>
    by_cases hw : a.isWhitespace = true
    · simp [List.dropWhile_cons, List.filter_cons, hw, ws_not_digit hw, ih]
    · simp [List.dropWhile_cons, hw]

lemma filter_digit_trimRight (l : Str) :
    (trimRight l).filter Char.isDigit = l.filter Char.isDigit := by
  induction l with
  | nil => rfl
  | cons a as ih =>
    simp only [trimRight]
    by_cases hr : trimRight as = []
    · rw [hr] at ih
      by_cases hw : a.isWhitespace = true
      · simp [hr, hw, List.filter_cons, ws_not_digit hw, ← ih]
      · simp only [hr, if_pos rfl, if_neg hw]
        simp [List.filter_cons, ← ih]
    · simp [if_neg hr, List.filter_cons, ih]

lemma stripNonDigits_trimStr (s : Str) :
    stripNonDigits (trimStr s) = stripNonDigits s := by
  show (trimRight (s.dropWhile Char.isWhitespace)).filter Char.isDigit = _
  rw [filter_digit_trimRight, filter_digit_dropWhile_ws]
  rfl

lemma trimRight_idem (l : Str) : trimRight (trimRight l) = trimRight l := by
  induction l with
  | nil => rfl
  | cons a as ih =>
    simp only [trimRight]
    by_cases hr : trimRight as = []
    · rw [if_pos hr]
      by_cases hw : a.isWhitespace = true
      · simp [hw, trimRight]
      · simp [hw, trimRight]
    · rw [if_neg hr]
      simp only [trimRight]
      rw [ih, if_neg hr]

lemma dropWhile_ws_head (l : Str) :
    l.dropWhile Char.isWhitespace = []
      ∨ ∃ a t, l.dropWhile Char.isWhitespace = a :: t ∧ a.isWhitespace = false := by
  induction l with
  | nil => exact Or.inl rfl
  | cons a as ih =>
    by_cases hw : a.isWhitespace = true
    · simpa [List.dropWhile_cons, hw] using ih
    · right
      exact ⟨a, as, by simp [List.dropWhile_cons, hw], by simpa using hw⟩

lemma dropWhile_ws_trimRight_cons (a : Char) (as : Str) (hw : a.isWhitespace = false) :
    (trimRight (a :: as)).dropWhile Char.isWhitespace = trimRight (a :: as) := by
  simp only [trimRight]
  by_cases hr : trimRight as = []
  · simp [hr, hw, List.dropWhile_cons]
  · simp [if_neg hr, List.dropWhile_cons, hw]

lemma trimStr_idem (s : Str) : trimStr (trimStr s) = trimStr s := by
  show trimRight ((trimRight (s.dropWhile Char.isWhitespace)).dropWhile Char.isWhitespace)
      = trimRight (s.dropWhile Char.isWhitespace)
  rcases dropWhile_ws_head s with h | ⟨a, t, h, hw⟩
  · rw [h]
    rfl
  · rw [h, dropWhile_ws_trimRight_cons a t hw, trimRight_idem]

lemma normalizeContactNumber_of_11 {s : Str}
    (h : (stripNonDigits s).length = 11 ∧ (stripNonDigits s).head? = some '1') :
    normalizeContactNumber s = (stripNonDigits s).tail ∧
      GSheets4.normalizeContactNumber s = (stripNonDigits s).tail := by
  unfold normalizeContactNumber GSheets4.normalizeContactNumber
  rw [if_pos h, if_pos h]
  exact ⟨rfl, rfl⟩

lemma normalizeContactNumber_of_10 {s : Str}
    (h : (stripNonDigits s).length = 10) :
    normalizeContactNumber s = stripNonDigits s ∧
      GSheets4.normalizeContactNumber s = stripNonDigits s := by
  have h11 : ¬ ((stripNonDigits s).length = 11 ∧ (stripNonDigits s).head? = some '1') := by
    rintro ⟨h', _⟩
    omega
  unfold normalizeContactNumber GSheets4.normalizeContactNumber
  rw [if_neg h11, if_pos h, if_neg h11, if_pos h]
  exact ⟨rfl, rfl⟩

lemma normalizeContactNumber_fallback {s : Str}
    (h11 : ¬ ((stripNonDigits s).length = 11 ∧ (stripNonDigits s).head? = some '1'))
    (h10 : (stripNonDigits s).length ≠ 10) :
    normalizeContactNumber s = stripNonDigits s ∧
      GSheets4.normalizeContactNumber s = trimStr s := by
  unfold normalizeContactNumber GSheets4.normalizeContactNumber
  rw [if_neg h11, if_neg h10, if_neg h11, if_neg h10]
  exact ⟨rfl, rfl⟩

lemma normalizeContactNumber_of_digits_10 {d : Str} (hd : stripNonDigits d = d)
    (hlen : d.length = 10) :
    normalizeContactNumber d = d ∧ GSheets4.normalizeContactNumber d = d := by
  have h := normalizeContactNumber_of_10 (s := d) (by rw [hd]; exact hlen)
  rw [hd] at h
  exact h

/-- C9: normalizePhone is idempotent, for both the part_000 variant of the
normalizer (fallback: the stripped digits) and the part_002/part_004
service variant (fallback: the trimmed input). -/
theorem normalizeContactNumber_idempotent (p : Str) :
    normalizeContactNumber (normalizeContactNumber p) = normalizeContactNumber p
      ∧ GSheets4.normalizeContactNumber (GSheets4.normalizeContactNumber p)
          = GSheets4.normalizeContactNumber p := by
  by_cases h11 : (stripNonDigits p).length = 11 ∧ (stripNonDigits p).head? = some '1'
  · obtain ⟨h1, h2⟩ := normalizeContactNumber_of_11 h11
    rw [h1, h2]
    have hd : stripNonDigits ((stripNonDigits p).tail) = (stripNonDigits p).tail :=
      stripNonDigits_tail p
    have hlen : ((stripNonDigits p).tail).length = 10 := by
      rw [List.length_tail, h11.1]
    exact normalizeContactNumber_of_digits_10 hd hlen
  · by_cases h10 : (stripNonDigits p).length = 10
    · obtain ⟨h1, h2⟩ := normalizeContactNumber_of_10 h10
      rw [h1, h2]
      exact normalizeContactNumber_of_digits_10 (stripNonDigits_idem p) h10
    · obtain ⟨h1, h2⟩ := normalizeContactNumber_fallback h11 h10
      rw [h1, h2]
      constructor
      · have hd := stripNonDigits_idem p
        obtain ⟨h1', _⟩ := normalizeContactNumber_fallback (s := stripNonDigits p)
          (by rw [hd]; exact h11) (by rw [hd]; exact h10)
        rw [h1', hd]
      · have hd := stripNonDigits_trimStr p
        obtain ⟨_, h2'⟩ := normalizeContactNumber_fallback (s := trimStr p)
          (by rw [hd]; exact h11) (by rw [hd]; exact h10)
        rw [h2', trimStr_idem]

/-- C5 counterexample: on the input 123-45 the part_002/part_004 service
normalizer (cited by the claim) does not return the stripped-digits string;
its fallback returns the trimmed original instead. -/
theorem normalizeContactNumber_fallback_counterexample :
    GSheets4.normalizeContactNumber ("123-45").data = ("123-45").data
      ∧ stripNonDigits ("123-45").data = ("12345").data
      ∧ GSheets4.normalizeContactNumber ("123-45").data ≠ stripNonDigits ("123-45").data := by
  refine ⟨by decide, by decide, by decide⟩

/-- C5 (amended): both cited normalizers strip non-digits and agree on the
11-digit-leading-1 and 10-digit branches; otherwise the part_000 variant
returns the stripped digits while the part_002/part_004 service variant
returns the trimmed original input; all variants send 15551234567 and
5551234567 to 5551234567. -/
theorem normalizeContactNumber_spec :
    (∀ s : Str, (stripNonDigits s).length = 11 → (stripNonDigits s).head? = some '1' →
        normalizeContactNumber s = (stripNonDigits s).tail
          ∧ GSheets4.normalizeContactNumber s = (stripNonDigits s).tail)
    ∧ (∀ s : Str, (stripNonDigits s).length = 10 →
        normalizeContactNumber s = stripNonDigits s
          ∧ GSheets4.normalizeContactNumber s = stripNonDigits s)
    ∧ (∀ s : Str, ¬ ((stripNonDigits s).length = 11 ∧ (stripNonDigits s).head? = some '1') →
        (stripNonDigits s).length ≠ 10 →
        normalizeContactNumber s = stripNonDigits s
          ∧ GSheets4.normalizeContactNumber s = trimStr s)
    ∧ normalizeContactNumber ("15551234567").data = ("5551234567").data
    ∧ normalizeContactNumber ("5551234567").data = ("5551234567").data
    ∧ GSheets4.normalizeContactNumber ("15551234567").data = ("5551234567").data
    ∧ GSheets4.normalizeContactNumber ("5551234567").data = ("5551234567").data := by
  refine ⟨fun s h1 h2 => normalizeContactNumber_of_11 ⟨h1, h2⟩,
    fun s h => normalizeContactNumber_of_10 h,
    fun s h1 h2 => normalizeContactNumber_fallback h1 h2,
    by decide, by decide, by decide, by decide⟩

/-- C5 witness: the amended branch description evaluated on the concrete
input 1 (555) 123-4567, whose stripped digits are 11 long with a leading 1. -/
theorem normalizeContactNumber_spec_witness :
    normalizeContactNumber ("1 (555) 123-4567").data
        = (stripNonDigits ("1 (555) 123-4567").data).tail
      ∧ GSheets4.normalizeContactNumber ("1 (555) 123-4567").data
          = (stripNonDigits ("1 (555) 123-4567").data).tail :=
  normalizeContactNumber_spec.1 (("1 (555) 123-4567").data) (by decide) (by decide)

lemma GSheets4_findFrom_eq (qe qc : Str) :
    ∀ (l : Sheet) (i : Nat),
      GSheets4.findFrom qe qc i l
        = ((List.enumFrom i l).find? fun p =>
            decide (3 ≤ p.2.length)
              && decide (GSheets4.normalizeEmail (cell p.2 1) = qe)
              && decide (GSheets4.normalizeContactNumber (cell p.2 2) = qc)).map
          fun p => (p.1 + 2, p.2) := by
  intro l
  induction l with
  | nil => intro i; rfl
  | cons r rest ih =>
    intro i
    have hcons : List.enumFrom i (r :: rest) = (i, r) :: List.enumFrom (i + 1) rest := rfl
    by_cases h3 : r.length < 3
    · have hle : ¬ 3 ≤ r.length := by omega
      rw [hcons, List.find?_cons_of_neg]
      · simp only [GSheets4.findFrom, if_pos h3]
        exact ih (i + 1)
      · simp [hle]
    · have hle : 3 ≤ r.length := by omega
      by_cases hm : GSheets4.normalizeEmail (cell r 1) = qe
          ∧ GSheets4.normalizeContactNumber (cell r 2) = qc
      · rw [hcons, List.find?_cons_of_pos]
        · simp only [GSheets4.findFrom, if_neg h3, if_pos hm]
          rfl
        · simp [hle, hm.1, hm.2]
      · rw [hcons, List.find?_cons_of_neg]
        · simp only [GSheets4.findFrom, if_neg h3, if_neg hm]
          exact ih (i + 1)
        · simp only [Bool.and_eq_true, decide_eq_true_eq, not_and]
          intro h1 h2
          exact hm ⟨h1.2, h2⟩

/-- C2 counterexample: the row-finding operation of
google-sheets-extensions.ts (cited by the claim) compares the raw cells, so
the claimed concrete consequence fails: a row stored with contact
+1 555-123-4567 is not matched by a query with contact 5551234567. -/
theorem findRow_raw_counterexample :
    GSheetsRaw.findRowByEmailAndContact ("a@b.c").data ("5551234567").data
        [[("t").data, ("a@b.c").data, ("+1 555-123-4567").data,
          ("s").data, ("h").data, ("u").data]]
      = none := by decide

/-- C2 (amended): the part_004 findRowByEmailAndContact equals the
specification-side locator that normalizes the stored email/contact cells
with the same normalizers as the query and returns the first match in row
order; in particular a row stored with contact +1 555-123-4567 is matched
by a query with contact 5551234567 there, while the
google-sheets-extensions.ts variant compares raw cells and misses it. -/
theorem findRowByEmailAndContact_eq_findSpec :
    (∀ (email contactNumber : Str) (sheet : Sheet),
        GSheets4.findRowByEmailAndContact email contactNumber sheet
          = findSpec email contactNumber sheet)
    ∧ GSheets4.findRowByEmailAndContact ("a@b.c").data ("5551234567").data
        [[("t").data, ("a@b.c").data, ("+1 555-123-4567").data,
          ("s").data, ("h").data, ("u").data]]
      = some (2, [("t").data, ("a@b.c").data, ("+1 555-123-4567").data,
          ("s").data, ("h").data, ("u").data]) := by
  constructor
  · intro email contactNumber sheet
    unfold GSheets4.findRowByEmailAndContact findSpec
    rw [GSheets4_findFrom_eq]
    rfl
  · decide

lemma GSheetsMain_findFrom_bounds (qe qc : Str) :
    ∀ (l : Sheet) (i k : Nat), GSheetsMain.findFrom qe qc i l = some k →
      i + 2 ≤ k ∧ ∃ r, l.get? (k - (i + 2)) = some r ∧ 3 ≤ r.length := by
  intro l
  induction l with
  | nil =>
    intro i k h
    exact absurd h (by simp [GSheetsMain.findFrom])
  | cons r rest ih =>
    intro i k h
    simp only [GSheetsMain.findFrom] at h
    by_cases h3 : 3 ≤ r.length
    · rw [if_pos h3] at h
      by_cases hm : trimStr ((cell r 1).map Char.toLower) = qe
          ∧ stripNonDigits (cell r 2) = qc
      · rw [if_pos hm] at h
        obtain rfl : i + 2 = k := Option.some.inj h
        exact ⟨Nat.le_refl _, r, by simp, h3⟩
      · rw [if_neg hm] at h
        obtain ⟨hk, r', hr', hlen⟩ := ih (i + 1) k h
        refine ⟨by omega, r', ?_, hlen⟩
        have hidx : k - (i + 2) = (k - (i + 1 + 2)) + 1 := by omega
        rw [hidx]
        exact hr'
    · rw [if_neg h3] at h
      obtain ⟨hk, r', hr', hlen⟩ := ih (i + 1) k h
      refine ⟨by omega, r', ?_, hlen⟩
      have hidx : k - (i + 2) = (k - (i + 1 + 2)) + 1 := by omega
      rw [hidx]
      exact hr'

lemma GSheets4_findFrom_bounds (qe qc : Str) :
    ∀ (l : Sheet) (i k : Nat) (row : Row),
      GSheets4.findFrom qe qc i l = some (k, row) →
      i + 2 ≤ k ∧ l.get? (k - (i + 2)) = some row ∧ 3 ≤ row.length := by
  intro l
  induction l with
  | nil =>
    intro i k row h
    exact absurd h (by simp [GSheets4.findFrom])
  | cons r rest ih =>
    intro i k row h
    simp only [GSheets4.findFrom] at h
    by_cases h3 : r.length < 3
    · rw [if_pos h3] at h
      obtain ⟨hk, hr', hlen⟩ := ih (i + 1) k row h
      refine ⟨by omega, ?_, hlen⟩
      have hidx : k - (i + 2) = (k - (i + 1 + 2)) + 1 := by omega
      rw [hidx]
      exact hr'
    · rw [if_neg h3] at h
      by_cases hm : GSheets4.normalizeEmail (cell r 1) = qe
          ∧ GSheets4.normalizeContactNumber (cell r 2) = qc
      · rw [if_pos hm] at h
        obtain ⟨h1, h2⟩ := Prod.ext_iff.mp (Option.some.inj h)
        obtain rfl : i + 2 = k := h1
        obtain rfl : r = row := h2
        exact ⟨Nat.le_refl _, by simp, by omega⟩
      · rw [if_neg hm] at h
        obtain ⟨hk, hr', hlen⟩ := ih (i + 1) k row h
        refine ⟨by omega, ?_, hlen⟩
        have hidx : k - (i + 2) = (k - (i + 1 + 2)) + 1 := by omega
        rw [hidx]
        exact hr'

/-- C10: when either row locator returns a match, the returned sheet row
index is at least 2 (the header row at index 1 is never returned, the scan
starting at the second sheet row), and the matched row has at least 3
columns. -/
theorem findRow_bounds :
    (∀ (email contactNumber : Str) (sheet : Sheet) (k : Nat),
        GSheetsMain.findUserRow email contactNumber sheet = some k →
        2 ≤ k ∧ ∃ r, sheet.get? (k - 2) = some r ∧ 3 ≤ r.length)
    ∧ (∀ (email contactNumber : Str) (sheet : Sheet) (k : Nat) (row : Row),
        GSheets4.findRowByEmailAndContact email contactNumber sheet = some (k, row) →
        2 ≤ k ∧ sheet.get? (k - 2) = some row ∧ 3 ≤ row.length) := by
  constructor
  · intro email contactNumber sheet k h
    obtain ⟨hk, r, hr, hlen⟩ := GSheetsMain_findFrom_bounds _ _ sheet 0 k h
    exact ⟨hk, r, hr, hlen⟩
  · intro email contactNumber sheet k row h
    obtain ⟨hk, hr, hlen⟩ := GSheets4_findFrom_bounds _ _ sheet 0 k row h
    exact ⟨hk, hr, hlen⟩

/-- C10 witness: the bound evaluated on a one-row store matched by the
part_004 locator at sheet row 2. -/
theorem findRow_bounds_witness :
    2 ≤ 2
      ∧ ([[("t").data, ("a@b.c").data, ("5551234567").data,
            ("s").data, ("h").data, ("u").data]] : Sheet).get? (2 - 2)
          = some [("t").data, ("a@b.c").data, ("5551234567").data,
            ("s").data, ("h").data, ("u").data]
      ∧ 3 ≤ ([("t").data, ("a@b.c").data, ("5551234567").data,
            ("s").data, ("h").data, ("u").data] : Row).length :=
  findRow_bounds.2 (("a@b.c").data) (("5551234567").data) _ 2 _ (by decide)

/-- Discriminator for a successful Except result. -/
def exceptOk {α : Type} (e : Except Str α) : Bool :=
  match e with
  | .ok _ => true
  | .error _ => false

/-- C6 counterexample: the part_004 reconciler (cited by the claim) throws
on an empty contact key instead of accepting it. -/
theorem appendChatLines_empty_contact_counterexample :
    GSheets4.appendChatLinesToRow true ("a@b.c").data [] [("x").data]
        [("t").data, ("s").data, ("u").data] []
      = .error ("Both email and contact number are required").data := rfl

/-- C6 (amended): the part_005 reconciler accepts an empty contact key
without rejecting it (every invocation with a succeeding write returns ok),
while the part_004 variant rejects empty email or contact with an error, so
there the gate on contact presence lives inside the reconciler rather than
with the caller. -/
theorem appendChatLines_raw_accepts_empty_contact
    (email : Str) (newChatLines : List Str) (otherValues : List Str) (sheet : Sheet) :
    exceptOk (GSheetsRaw.appendChatLinesToRow true email [] newChatLines
        otherValues sheet) = true := by
  unfold GSheetsRaw.appendChatLinesToRow
  cases GSheetsRaw.findRowByEmailAndContact email [] sheet with
  | some p =>
    cases p with
    | mk i r => rfl
  | none => rfl

/-- C4 counterexample: on an empty newChatLines list the part_005
reconciler (cited by the claim) still issues a store write: from the empty
store it appends a fresh row with an empty history cell. -/
theorem appendChatLines_empty_lines_counterexample :
    GSheetsRaw.appendChatLinesToRow true ("a@b.c").data ("5551234567").data []
        [("t").data, ("s").data, ("u").data] []
      = .ok ([[("t").data, ("a@b.c").data, ("5551234567").data,
              ("s").data, [], ("u").data]], .created)
    ∧ ([[("t").data, ("a@b.c").data, ("5551234567").data,
          ("s").data, [], ("u").data]] : Sheet) ≠ [] :=
  ⟨rfl, by simp⟩

/-- C4 (amended): with the part_004 reconciler an empty newChatLines list
issues no store write at all — whether or not the write channel would
succeed, the call returns NoOp and the store is unchanged; the part_005
variant instead issues exactly one write even for an empty list. -/
theorem appendChatLines_empty_lines_noop
    (writeOk : Bool) (email contactNumber : Str) (otherValues : List Str) (sheet : Sheet)
    (he : email ≠ []) (hc : contactNumber ≠ []) :
    GSheets4.appendChatLinesToRow writeOk email contactNumber [] otherValues sheet
      = .ok (sheet, .noop) := by
  unfold GSheets4.appendChatLinesToRow
  rw [if_neg (not_or.mpr ⟨he, hc⟩), if_pos rfl]

/-- C4 witness: the NoOp equation evaluated at a concrete session. -/
theorem appendChatLines_empty_lines_noop_witness :
    GSheets4.appendChatLinesToRow false ("a@b.c").data ("5551234567").data []
        [("t").data, ("s").data, ("u").data] []
      = .ok ([], .noop) :=
  appendChatLines_empty_lines_noop false (("a@b.c").data) (("5551234567").data)
    [("t").data, ("s").data, ("u").data] [] (by decide) (by decide)

/-- C3: for a non-empty list of new lines the part_004 reconciler updates a
located row in place, writing back the full six-column row with the new
history equal to the old history extended by the joined new lines (or just
the joined lines when the old history is empty), and appends a fresh
six-column row when no row is located; starting from the empty store, a
first reconcile with line1 creates the row and a second reconcile with the
same keys and line2 updates it to history line1, newline, line2. -/
theorem appendChatLinesToRow_reconcile :
    (∀ (email contactNumber : Str) (newChatLines : List Str) (otherValues : List Str)
        (sheet : Sheet) (rowIndex : Nat) (row : Row),
        newChatLines ≠ [] → email ≠ [] → contactNumber ≠ [] →
        GSheets4.findRowByEmailAndContact email contactNumber sheet = some (rowIndex, row) →
        GSheets4.appendChatLinesToRow true email contactNumber newChatLines otherValues sheet
          = .ok (updateRow sheet rowIndex
              [otherValues.getD 0 [], email, contactNumber, otherValues.getD 1 [],
               (if cell row 4 = [] then joinLines newChatLines
                else cell row 4 ++ '\n' :: joinLines newChatLines),
               otherValues.getD 2 []],
             .updated rowIndex))
    ∧ (∀ (email contactNumber : Str) (newChatLines : List Str) (otherValues : List Str)
        (sheet : Sheet),
        newChatLines ≠ [] → email ≠ [] → contactNumber ≠ [] →
        GSheets4.findRowByEmailAndContact email contactNumber sheet = none →
        GSheets4.appendChatLinesToRow true email contactNumber newChatLines otherValues sheet
          = .ok (sheet ++
              [[otherValues.getD 0 [], email, contactNumber, otherValues.getD 1 [],
                joinLines newChatLines, otherValues.getD 2 []]],
             .created))
    ∧ GSheets4.appendChatLinesToRow true ("a@b.c").data ("5551234567").data
        [("line1").data] [("t1").data, ("s1").data, ("u").data] []
      = .ok ([[("t1").data, ("a@b.c").data, ("5551234567").data,
              ("s1").data, ("line1").data, ("u").data]], .created)
    ∧ GSheets4.appendChatLinesToRow true ("a@b.c").data ("5551234567").data
        [("line2").data] [("t2").data, ("s2").data, ("u").data]
        [[("t1").data, ("a@b.c").data, ("5551234567").data,
          ("s1").data, ("line1").data, ("u").data]]
      = .ok ([[("t2").data, ("a@b.c").data, ("5551234567").data,
              ("s2").data, ("line1\nline2").data, ("u").data]], .updated 2) := by
  refine ⟨?_, ?_, rfl, rfl⟩
  · intro email contactNumber newChatLines otherValues sheet rowIndex row hl he hc hfind
    unfold GSheets4.appendChatLinesToRow
    rw [if_neg (not_or.mpr ⟨he, hc⟩), if_neg hl, hfind]
    rfl
  · intro email contactNumber newChatLines otherValues sheet hl he hc hfind
    unfold GSheets4.appendChatLinesToRow
    rw [if_neg (not_or.mpr ⟨he, hc⟩), if_neg hl, hfind]
    rfl

/-- C3 witness: the located-row clause evaluated on the concrete one-row
store produced by the first reconcile of the scenario. -/
theorem appendChatLinesToRow_reconcile_witness :
    GSheets4.appendChatLinesToRow true ("a@b.c").data ("5551234567").data
        [("line2").data] [("t2").data, ("s2").data, ("u").data]
        [[("t1").data, ("a@b.c").data, ("5551234567").data,
          ("s1").data, ("line1").data, ("u").data]]
      = .ok (updateRow
          [[("t1").data, ("a@b.c").data, ("5551234567").data,
            ("s1").data, ("line1").data, ("u").data]] 2
          [("t2").data, ("a@b.c").data, ("5551234567").data, ("s2").data,
           (if cell [("t1").data, ("a@b.c").data, ("5551234567").data,
              ("s1").data, ("line1").data, ("u").data] 4 = []
            then joinLines [("line2").data]
            else cell [("t1").data, ("a@b.c").data, ("5551234567").data,
              ("s1").data, ("line1").data, ("u").data] 4 ++ '\n' :: joinLines [("line2").data]),
           ("u").data],
          .updated 2) :=
  appendChatLinesToRow_reconcile.1 (("a@b.c").data) (("5551234567").data)
    [("line2").data] [("t2").data, ("s2").data, ("u").data]
    [[("t1").data, ("a@b.c").data, ("5551234567").data,
      ("s1").data, ("line1").data, ("u").data]] 2
    [("t1").data, ("a@b.c").data, ("5551234567").data,
      ("s1").data, ("line1").data, ("u").data]
    (by decide) (by decide) (by decide) (by decide)

lemma contactOrDefault_ne_nil (o : Option Str) : contactOrDefault o ≠ [] := by
  cases o with
  | none => decide
  | some c =>
    by_cases hc : c = []
    · subst hc
      decide
    · simp [contactOrDefault, hc]

lemma appendChatLines_ok (email contactNumber : Str)
    (newChatLines otherValues : List Str) (sheet : Sheet)
    (he : email ≠ []) (hc : contactNumber ≠ []) (hl : newChatLines ≠ []) :
    ∃ sheet' oc,
      GSheets4.appendChatLinesToRow true email contactNumber newChatLines otherValues sheet
        = .ok (sheet', oc) ∧ oc ≠ SaveOutcome.noop := by
  unfold GSheets4.appendChatLinesToRow
  rw [if_neg (not_or.mpr ⟨he, hc⟩), if_neg hl]
  cases hfind : GSheets4.findRowByEmailAndContact email contactNumber sheet with
  | some p =>
    obtain ⟨i, row⟩ := p
    exact ⟨_, _, rfl, by simp⟩
  | none => exact ⟨_, _, rfl, by simp⟩

lemma appendChatLines_err (email contactNumber : Str)
    (newChatLines otherValues : List Str) (sheet : Sheet)
    (he : email ≠ []) (hc : contactNumber ≠ []) (hl : newChatLines ≠ []) :
    ∃ msg,
      GSheets4.appendChatLinesToRow false email contactNumber newChatLines otherValues sheet
        = .error msg := by
  unfold GSheets4.appendChatLinesToRow
  rw [if_neg (not_or.mpr ⟨he, hc⟩), if_neg hl]
  cases hfind : GSheets4.findRowByEmailAndContact email contactNumber sheet with
  | some p =>
    obtain ⟨i, row⟩ := p
    exact ⟨_, rfl⟩
  | none => exact ⟨_, rfl⟩

lemma saveConversationToSheet_eq_ok (email userId now : Str)
    (st : SessionState) (sheet : Sheet)
    (he : email ≠ []) (hp : st.conversation.drop st.lastSavedMessageIndex ≠ []) :
    ∃ sheet' oc,
      saveConversationToSheet true email userId now st sheet
        = (.saved oc,
           { st with lastSavedMessageIndex := st.conversation.length, lastSaveTime := now },
           sheet')
      ∧ oc ≠ SaveOutcome.noop := by
  obtain ⟨sheet', oc, heq, hoc⟩ := appendChatLines_ok email
    (contactOrDefault st.userContactNumber)
    ((st.conversation.drop st.lastSavedMessageIndex).map formatLine)
    [now,
     sessionSummary st.conversation.length
       (st.conversation.drop st.lastSavedMessageIndex).length,
     userId] sheet he (contactOrDefault_ne_nil _)
    (fun h => hp (List.map_eq_nil_iff.mp h))
  refine ⟨sheet', oc, ?_, hoc⟩
  unfold saveConversationToSheet
  rw [if_neg hp, heq]

/-- Advancing the session state after a successful flush: the high-water
mark moves to the conversation length and the save time is refreshed. -/
def advanceSession (st : SessionState) (now : Str) : SessionState :=
  { st with lastSavedMessageIndex := st.conversation.length, lastSaveTime := now }

/-- A sample conversation message, for concrete evaluations. -/
def msgHi : ChatMessage := ⟨("user").data, ("hi").data, ("t1").data⟩

/-- A sample session with one unflushed message, for concrete evaluations. -/
def sampleSession : SessionState := ⟨[msgHi], some ("5551234567").data, 0, ("t0").data⟩

/-- C1: when a session has unflushed turns, the first flush performs exactly
one store write and advances the saved-message high-water mark to the
conversation length, so the slice of new messages at a second flush with no
intervening recordTurn is empty and that second call is a NoOp with zero
store writes, leaving both the session state and the store (hence the
history cell) unchanged. -/
theorem flush_twice_single_write (email userId now now2 : Str)
    (st : SessionState) (sheet : Sheet)
    (he : email ≠ []) (hp : st.conversation.drop st.lastSavedMessageIndex ≠ []) :
    ∃ st' sheet' oc,
      saveConversationToSheet true email userId now st sheet = (.saved oc, st', sheet')
      ∧ sheetWrites (.saved oc) = 1
      ∧ st'.conversation.drop st'.lastSavedMessageIndex = []
      ∧ saveConversationToSheet true email userId now2 st' sheet'
          = (.nothingNew, st', sheet')
      ∧ sheetWrites FlushResult.nothingNew = 0 := by
  obtain ⟨sheet', oc, heq, hoc⟩ :=
    saveConversationToSheet_eq_ok email userId now st sheet he hp
  have hdrop : (advanceSession st now).conversation.drop
      (advanceSession st now).lastSavedMessageIndex = [] := by
    simp [advanceSession, List.drop_length]
  refine ⟨advanceSession st now, sheet', oc, heq, ?_, hdrop, ?_, rfl⟩
  · cases oc with
    | updated i => rfl
    | created => rfl
    | noop => exact absurd rfl hoc
  · unfold saveConversationToSheet
    rw [if_pos hdrop]

/-- C1 witness: the two-flush equations evaluated on a concrete session with
one unflushed message. -/
theorem flush_twice_single_write_witness :
    ∃ st' sheet' oc,
      saveConversationToSheet true ("a@b.c").data ("u1").data ("tA").data
          sampleSession []
        = (.saved oc, st', sheet')
      ∧ sheetWrites (.saved oc) = 1
      ∧ st'.conversation.drop st'.lastSavedMessageIndex = []
      ∧ saveConversationToSheet true ("a@b.c").data ("u1").data ("tB").data st' sheet'
          = (.nothingNew, st', sheet')
      ∧ sheetWrites FlushResult.nothingNew = 0 :=
  flush_twice_single_write (("a@b.c").data) (("u1").data) (("tA").data) (("tB").data)
    sampleSession [] (by decide) (by decide)

/-- C7: a successful flush advances the high-water mark to the conversation
length; when the underlying store write fails, the flush reports failure and
leaves the session state and the store unchanged, so the next flush sees
exactly the same unsaved lines. -/
theorem flush_highwater_mark (email userId now : Str)
    (st : SessionState) (sheet : Sheet)
    (he : email ≠ []) (hp : st.conversation.drop st.lastSavedMessageIndex ≠ []) :
    (∃ sheet' oc,
      saveConversationToSheet true email userId now st sheet
        = (.saved oc, advanceSession st now, sheet')
      ∧ oc ≠ SaveOutcome.noop)
    ∧ saveConversationToSheet false email userId now st sheet = (.failed, st, sheet)
    ∧ ((saveConversationToSheet false email userId now st sheet).2.1).conversation.drop
        ((saveConversationToSheet false email userId now st sheet).2.1).lastSavedMessageIndex
      = st.conversation.drop st.lastSavedMessageIndex := by
  have hfail : saveConversationToSheet false email userId now st sheet
      = (.failed, st, sheet) := by
    obtain ⟨msg, heq⟩ := appendChatLines_err email
      (contactOrDefault st.userContactNumber)
      ((st.conversation.drop st.lastSavedMessageIndex).map formatLine)
      [now,
       sessionSummary st.conversation.length
         (st.conversation.drop st.lastSavedMessageIndex).length,
       userId] sheet he (contactOrDefault_ne_nil _)
      (fun h => hp (List.map_eq_nil_iff.mp h))
    unfold saveConversationToSheet
    rw [if_neg hp, heq]
  exact ⟨saveConversationToSheet_eq_ok email userId now st sheet he hp, hfail,
    by rw [hfail]⟩

/-- C7 witness: the success and failure equations evaluated on a concrete
session with one unflushed message. -/
theorem flush_highwater_mark_witness :
    (∃ sheet' oc,
      saveConversationToSheet true ("a@b.c").data ("u1").data ("tA").data
          sampleSession []
        = (.saved oc, advanceSession sampleSession ("tA").data, sheet')
      ∧ oc ≠ SaveOutcome.noop)
    ∧ saveConversationToSheet false ("a@b.c").data ("u1").data ("tA").data
          sampleSession []
        = (.failed, sampleSession, [])
    ∧ ((saveConversationToSheet false ("a@b.c").data ("u1").data ("tA").data
          sampleSession []).2.1).conversation.drop
        ((saveConversationToSheet false ("a@b.c").data ("u1").data ("tA").data
          sampleSession []).2.1).lastSavedMessageIndex
      = sampleSession.conversation.drop sampleSession.lastSavedMessageIndex :=
  flush_highwater_mark (("a@b.c").data) (("u1").data) (("tA").data)
    sampleSession [] (by decide) (by decide)

/-- C8: whenever refresh credentials are configured and the access token is
within 60 seconds of its expiry or the expiry is unknown, the client
performs the refresh-token exchange before the store operation; a failed
exchange propagates as an error and aborts the pending append, so the
operation is never issued with a stale token. -/
theorem refresh_before_store_op (now : Int) (st : TokenState)
    (hr : st.refreshToken ≠ []) (hi : st.clientId ≠ []) (hs : st.clientSecret ≠ [])
    (hstale : st.tokenExpiry = none ∨ ∃ e, st.tokenExpiry = some e ∧ e - 60000 ≤ now) :
    (∀ resp, ∃ st',
      GSheetsRefresh.refreshAccessTokenIfNeeded now (some resp) st = .ok (st', true))
    ∧ GSheetsRefresh.refreshAccessTokenIfNeeded now none st
        = .error ("Failed to refresh access token").data
    ∧ ∀ (writeOk : Bool) (values : Row) (sheet : Sheet),
        GSheetsRefresh.appendRow now none writeOk st values sheet
          = .error ("Failed to refresh access token").data := by
  have hcreds : ¬ (st.refreshToken = [] ∨ st.clientId = [] ∨ st.clientSecret = []) := by
    rintro (h | h | h)
    · exact hr h
    · exact hi h
    · exact hs h
  have hvalid : GSheetsRefresh.tokenStillValid now st = false := by
    rcases hstale with h | ⟨e, he, hle⟩
    · simp [GSheetsRefresh.tokenStillValid, h]
    · simp [GSheetsRefresh.tokenStillValid, he]
      omega
  have herr : GSheetsRefresh.refreshAccessTokenIfNeeded now none st
      = .error ("Failed to refresh access token").data := by
    unfold GSheetsRefresh.refreshAccessTokenIfNeeded
    rw [if_neg hcreds, hvalid]
    rfl
  refine ⟨?_, herr, ?_⟩
  · intro resp
    unfold GSheetsRefresh.refreshAccessTokenIfNeeded
    rw [if_neg hcreds, hvalid]
    exact ⟨_, rfl⟩
  · intro writeOk values sheet
    unfold GSheetsRefresh.appendRow
    rw [herr]

/-- C8 witness: the refresh-then-abort behaviour evaluated on a concrete
client whose expiry is unknown and whose exchange fails. -/
theorem refresh_before_store_op_witness :
    (∀ resp, ∃ st',
      GSheetsRefresh.refreshAccessTokenIfNeeded 0 (some resp)
          ⟨("tok").data, ("ref").data, ("id").data, ("sec").data, none⟩
        = .ok (st', true))
    ∧ GSheetsRefresh.refreshAccessTokenIfNeeded 0 none
          ⟨("tok").data, ("ref").data, ("id").data, ("sec").data, none⟩
        = .error ("Failed to refresh access token").data
    ∧ ∀ (writeOk : Bool) (values : Row) (sheet : Sheet),
        GSheetsRefresh.appendRow 0 none writeOk
            ⟨("tok").data, ("ref").data, ("id").data, ("sec").data, none⟩ values sheet
          = .error ("Failed to refresh access token").data :=
  refresh_before_store_op 0 ⟨("tok").data, ("ref").data, ("id").data, ("sec").data, none⟩
    (by decide) (by decide) (by decide) (Or.inl rfl)
